import Mathlib

/-!
Shallow embedding of `src/go/wsl-helper/pkg/dockerproxy/util/reverse_proxy.go`
(package `util` of the rancher-desktop repository).

The Go code is a custom reverse proxy.  Its externally visible behaviour is
modelled as a deterministic event trace: every interaction with the outside
world (the client-facing `http.ResponseWriter`, the backend connection, the
cancellable context, the hijacked connection) is an `Ev` event, and each
fallible external call (dial, request construction, request write, response
parse, the ModifyResponse hook, hijack, buffered flush, buffered read,
backend write, the duplex pipe) has its outcome supplied by an environment
record.  The functions `forwardRequest` and `handleUpgradedConnection`
below mirror the Go control flow statement by statement, including the
`defer`red cleanups (which in Go run in LIFO order on every exit path,
panics included).

Go/net-http facts baked into the model:
- `http.Error(w, ...)` before a successful hijack writes an HTTP error
  response that the client receives (event `Ev.httpError`); after a
  successful `Hijack` the same call is swallowed by net/http (the
  `http.response` logs "WriteHeader on hijacked connection" and transmits
  nothing), modelled as the distinct event `Ev.reportError`.
- a Go `panic` unwinds the deferred calls before reaching the net/http
  recover, so the deferred events still appear after `Ev.panicEv`.
- `bufio.Reader.Read` with a destination of size `Buffered()` returns
  exactly the buffered bytes; the outcome is still modelled as fallible
  because the Go code checks the error.
- Go map iteration order over `http.Header` is arbitrary; a header is
  modelled as an association list whose order stands for one such
  iteration order.
-/

/-- Byte strings, as lists of bytes. -/
abbrev Bytes := List Nat

/-- Model of Go `http.Header`: a finite map from canonical keys to the
ordered list of values, represented as an association list (the list order
models the arbitrary Go map iteration order). -/
abbrev Header := List (String × List String)

/-- Model of a Go `*http.Request` as far as `forwardRequest` reads and
builds it: method, URL (kept as the raw string the code builds), the
request-URI of the inbound request, headers, body stream contents, and the
`Close` field. -/
structure HttpRequest where
  method : String
  url : String
  requestURI : String
  header : Header
  body : Bytes
  close : Bool
deriving DecidableEq, Repr

/-- Model of a Go `*http.Response` as far as `forwardRequest` reads it:
status code, headers, body stream contents. -/
structure HttpResponse where
  statusCode : Nat
  header : Header
  body : Bytes
deriving DecidableEq, Repr

/-- Constant `hostHeaderValue` from the source. -/
def hostHeaderValue : String := "api.moby.localhost"

/-- Constant `targetProtocol` from the source. -/
def targetProtocol : String := "http://"

/-- The ticker interval of `periodicHttpFlush`, in milliseconds
(`time.NewTicker(100 * time.Millisecond)`). -/
def tickIntervalMs : Nat := 100

/-- Model of the `ReverseProxy` struct: the `Dial` field is kept abstract
(its outcome lives in the per-request environment), `Director` and
`ModifyResponse` are the optional hooks. -/
structure ReverseProxy where
  director : Option (HttpRequest → HttpRequest)
  modifyResponse : Option (HttpResponse → Except String HttpResponse)

/-- Observable events of one forwarding operation.

Client-visible events: `httpError` (an `http.Error` call that reaches the
client), `headerAdd` (`w.Header().Add`), `writeHeader`
(`w.WriteHeader`), `flush` (`flusher.Flush`), `bodyChunk` (bytes copied
onto `w` by `io.Copy`).

Backend-side events: `dialBackend`, `writeBackendReq` (the outbound
request handed to `newReq.Write(backendConn)`), `writeBackendBytes` (raw
bytes written to the backend by the upgrade handler), `closeBackend`.

Upgrade-phase events: `hijackEv` (a successful hijack),
`flushClient` (flushing the hijacked buffered writer), `reportError`
(an `http.Error` call made after the hijack, which net/http drops with a
log line and never transmits), `startPipe` (the `Pipe` call),
`closeClient` (the deferred `clientConn.Close()`).

Bookkeeping events: `upgradeInvoked` (entry into
`handleUpgradedConnection`), `startFlusher` (the `go periodicHttpFlush`
statement), `closeRespBody` (deferred `backendResponse.Body.Close()`),
`cancelScope` (the deferred `cancel()`), `panicEv` (a Go panic). -/
inductive Ev where
  | dialBackend
  | httpError (code : Nat) (msg : String)
  | closeBackend
  | writeBackendReq (req : HttpRequest)
  | headerAdd (key value : String)
  | writeHeader (code : Nat)
  | flush
  | bodyChunk (b : Bytes)
  | startFlusher
  | upgradeInvoked
  | closeRespBody
  | cancelScope
  | panicEv (msg : String)
  | hijackEv
  | flushClient
  | reportError (code : Nat) (msg : String)
  | writeBackendBytes (b : Bytes)
  | startPipe
  | closeClient
deriving DecidableEq, Repr

/-- Outcomes of the external calls made by `handleUpgradedConnection`:
the hijack, the number of bytes buffered on the hijacked writer, the
flush of that writer, the bytes buffered on the hijacked reader, the
`Read` draining them, the backend `Write` forwarding them, the two
`HalfReadWriteCloser` type assertions, and the `Pipe` call. -/
structure UpgEnv where
  hijack : Except String Unit
  bufWrite : Nat
  flushBufWrite : Except String Unit
  bufRead : Bytes
  readBuf : Except String Unit
  writeBackend : Except String Unit
  backendHalf : Bool
  clientHalf : Bool
  pipe : Except String Unit
deriving Repr

/-- Outcomes of the external calls made by `forwardRequest`: the `Dial`,
the `http.NewRequestWithContext` construction, the `newReq.Write`, the
`http.ReadResponse` parse, whether the `ResponseWriter` implements
`http.Flusher`, the `io.Copy` outcome (`none` = copied to EOF, `some n` =
error after `n` bytes), and the nested environment for a possible
upgrade. -/
structure FwdEnv where
  dial : Except String Unit
  newRequest : Except String Unit
  writeReq : Except String Unit
  readResponse : Except String HttpResponse
  flushable : Bool
  bodyCopy : Option Nat
  upg : UpgEnv
deriving Repr

/-- Applying the optional `ModifyResponse` hook (`nil` hook: the response
passes through unchanged). -/
def applyModify (hook : Option (HttpResponse → Except String HttpResponse))
    (resp : HttpResponse) : Except String HttpResponse :=
  match hook with
  | none => Except.ok resp
  | some f => f resp

/-- Applying the optional `Director` hook. -/
def applyDirector (hook : Option (HttpRequest → HttpRequest))
    (req : HttpRequest) : HttpRequest :=
  match hook with
  | none => req
  | some f => f req

/-- The outbound request as built by lines 100-106 of the source:
`url := targetProtocol + hostHeaderValue + r.RequestURI`,
`http.NewRequestWithContext(ctx, r.Method, url, r.Body)` (Go zero value
gives `Close = false`), then `newReq.Header = r.Header`. -/
def mkOutbound (r : HttpRequest) : HttpRequest :=
  { method := r.method
    url := targetProtocol ++ hostHeaderValue ++ r.requestURI
    requestURI := r.requestURI
    header := r.header
    body := r.body
    close := false }

/-- The request actually written to the backend: the built request, then
the Director hook if present, then `newReq.Close = false` (lines
108-114). -/
def sentRequest (proxy : ReverseProxy) (r : HttpRequest) : HttpRequest :=
  { applyDirector proxy.director (mkOutbound r) with close := false }

/-- The `w.Header().Add(key, value)` events of the header-propagation
loop (lines 142-146): for each key, each value in order. -/
def headerAddEvents (h : Header) : List Ev :=
  h.flatMap (fun kv => kv.2.map (fun v => Ev.headerAdd kv.1 v))

/-- Capability-check and pipe phase of `handleUpgradedConnection`
(lines 219-243): the backend type assertion is checked first, then the
client one; only when both hold is `Pipe` called, and a `Pipe` error is
reported through the (hijacked, hence dropped) `http.Error`. -/
def capAndPipe (env : UpgEnv) : List Ev :=
  if env.backendHalf = false then
    [Ev.reportError 500 "backend connection does not implement HalfReadCloseWriter"]
  else if env.clientHalf = false then
    [Ev.reportError 500 "client connection does not implement HalfReadCloseWriter"]
  else
    Ev.startPipe ::
      (match env.pipe with
       | Except.error e => [Ev.reportError 500 e]
       | Except.ok _ => [])

/-- Buffered-reader drain phase of `handleUpgradedConnection` (lines
203-217): if bytes are buffered on the hijacked reader, read them (a
`bufio` read of exactly `Buffered()` bytes) and write them to the
backend, then continue with the capability checks. -/
def drainAndPipe (env : UpgEnv) : List Ev :=
  if env.bufRead.length > 0 then
    match env.readBuf with
    | Except.error e => [Ev.reportError 500 e]
    | Except.ok _ =>
      match env.writeBackend with
      | Except.error e => [Ev.reportError 500 e]
      | Except.ok _ => Ev.writeBackendBytes env.bufRead :: capAndPipe env
  else capAndPipe env

/-- Buffered-writer flush phase of `handleUpgradedConnection` (lines
195-201): if bytes are buffered on the hijacked writer, flush them to
the client, then continue with the reader drain. -/
def flushAndPipe (env : UpgEnv) : List Ev :=
  if env.bufWrite > 0 then
    match env.flushBufWrite with
    | Except.error e => [Ev.reportError 500 e]
    | Except.ok _ => Ev.flushClient :: drainAndPipe env
  else drainAndPipe env

/-- `handleUpgradedConnection` (lines 180-243).  A failed hijack is
reported with a real `http.Error` (the connection is still owned by
net/http there); after a successful hijack, `defer clientConn.Close()`
guarantees the trailing `closeClient`, and every later `http.Error` call
is the dropped-and-logged `reportError`. -/
def handleUpgradedConnection (env : UpgEnv) : List Ev :=
  match env.hijack with
  | Except.error e => [Ev.httpError 500 e]
  | Except.ok _ => Ev.hijackEv :: (flushAndPipe env ++ [Ev.closeClient])

/-- The deferred cleanups of `forwardRequest` that are armed once the
response parse succeeded, in LIFO execution order:
`backendResponse.Body.Close()`, `backendConn.Close()`, `cancel()`. -/
def deferredAll : List Ev := [Ev.closeRespBody, Ev.closeBackend, Ev.cancelScope]

/-- The streaming / upgrade tail of `forwardRequest` (lines 156-170),
entered after the flush of the committed headers: on a 101 status the
upgrade handler runs and the function returns (no flusher is started);
otherwise the flusher goroutine is started and `io.Copy` streams the
body (all of it, or the prefix before a copy error). -/
def streamOrUpgrade (env : FwdEnv) (resp : HttpResponse) : List Ev :=
  if resp.statusCode = 101 then
    (Ev.upgradeInvoked :: handleUpgradedConnection env.upg) ++ deferredAll
  else
    Ev.startFlusher ::
      (match env.bodyCopy with
       | none => Ev.bodyChunk resp.body :: deferredAll
       | some n => Ev.bodyChunk (resp.body.take n) :: deferredAll)

/-- Header commit of `forwardRequest` (lines 141-154): propagate every
backend header value, write the status, then flush — panicking (with the
deferred cleanups still running) if the `ResponseWriter` is not an
`http.Flusher`. -/
def commitAndStream (env : FwdEnv) (resp : HttpResponse) : List Ev :=
  headerAddEvents resp.header ++
    (Ev.writeHeader resp.statusCode ::
      (if env.flushable = false then
        Ev.panicEv "expected http.ResponseWriter to be an http.Flusher" :: deferredAll
      else
        Ev.flush :: streamOrUpgrade env resp))

/-- Everything `forwardRequest` does after the `proxy.Dial` call (the
trace of lines 93-170).  Each `http.Error` branch mirrors a `return` in
the source, and each exit runs the `defer`s armed so far in LIFO
order. -/
def forwardTail (proxy : ReverseProxy) (env : FwdEnv) (r : HttpRequest) :
    List Ev :=
  match env.dial with
  | Except.error e => [Ev.httpError 502 e, Ev.cancelScope]
  | Except.ok _ =>
    match env.newRequest with
    | Except.error e => [Ev.httpError 500 e, Ev.closeBackend, Ev.cancelScope]
    | Except.ok _ =>
      Ev.writeBackendReq (sentRequest proxy r) ::
        match env.writeReq with
        | Except.error e => [Ev.httpError 502 e, Ev.closeBackend, Ev.cancelScope]
        | Except.ok _ =>
          match env.readResponse with
          | Except.error e => [Ev.httpError 502 e, Ev.closeBackend, Ev.cancelScope]
          | Except.ok resp0 =>
            match applyModify proxy.modifyResponse resp0 with
            | Except.error e => (Ev.httpError 502 e) :: deferredAll
            | Except.ok resp => commitAndStream env resp

/-- `forwardRequest` (lines 52-171), as the event trace of one request:
one `Dial` of the backend, then everything that follows. -/
def forwardRequest (proxy : ReverseProxy) (env : FwdEnv) (r : HttpRequest) :
    List Ev :=
  Ev.dialBackend :: forwardTail proxy env r

/-- The events of a trace that the client can observe on its connection:
delivered HTTP error responses, header additions, the status line, the
flushes and the body bytes. -/
def clientVisible : Ev → Bool
  | Ev.httpError _ _ => true
  | Ev.headerAdd _ _ => true
  | Ev.writeHeader _ => true
  | Ev.flush => true
  | Ev.bodyChunk _ => true
  | _ => false

/-- The client-observable subtrace. -/
def clientObs (t : List Ev) : List Ev := t.filter clientVisible

/-- The delivered HTTP error responses of a trace. -/
def httpErrorEvents (t : List Ev) : List Ev :=
  t.filter (fun e => match e with | Ev.httpError _ _ => true | _ => false)

/-- One iteration of the `select` loop in `periodicHttpFlush` (lines
67-80): either the context is done first (`cancel`), or the ticker fires
(`tick b`, where `b` records whether the inner `select` then sees the
context already done). -/
inductive FlushStep where
  | cancel
  | tick (interimCanceled : Bool)
deriving DecidableEq, Repr

/-- Observable events of `periodicHttpFlush`: the log line emitted when
the `ResponseWriter` is not an `http.Flusher`, and each `flusher.Flush()`
call. -/
inductive FlushEv where
  | logNoFlusher
  | flushEv
deriving DecidableEq, Repr

/-- The loop of `periodicHttpFlush` over a finite prefix of `select`
outcomes: `cancel` returns at once; `tick true` (context done in the
interim) returns without flushing; `tick false` flushes once and loops. -/
def flushLoop : List FlushStep → List FlushEv
  | [] => []
  | FlushStep.cancel :: _ => []
  | FlushStep.tick true :: _ => []
  | FlushStep.tick false :: rest => FlushEv.flushEv :: flushLoop rest

/-- `periodicHttpFlush` (lines 55-81): if the sink is not an
`http.Flusher`, log and return without ever flushing; otherwise run the
ticker loop. -/
def periodicHttpFlush (flushable : Bool) (steps : List FlushStep) :
    List FlushEv :=
  if flushable = false then [FlushEv.logNoFlusher] else flushLoop steps

/-- The number of leading `tick false` steps of a schedule: the ticks
that fire before any cancellation is observed. -/
def uncanceledTicks : List FlushStep → Nat
  | FlushStep.tick false :: rest => uncanceledTicks rest + 1
  | _ => 0

/-- A sample upgrade environment in which every external call succeeds,
one byte is buffered on the hijacked writer, the bytes of `"PONG"` are
buffered on the hijacked reader, and both connections support
half-close. -/
def upgOk : UpgEnv :=
  { hijack := Except.ok ()
    bufWrite := 1
    flushBufWrite := Except.ok ()
    bufRead := [80, 79, 78, 71]
    readBuf := Except.ok ()
    writeBackend := Except.ok ()
    backendHalf := true
    clientHalf := true
    pipe := Except.ok () }

/-- A sample backend response: `200 OK`, `Content-Length: 5`, body
`"hello"`. -/
def sampleResp : HttpResponse :=
  { statusCode := 200
    header := [("Content-Length", ["5"])]
    body := [104, 101, 108, 108, 111] }

/-- A sample `101 Switching Protocols` backend response. -/
def sampleResp101 : HttpResponse :=
  { statusCode := 101
    header := [("Upgrade", ["tcp"])]
    body := [] }

/-- A sample inbound request. -/
def sampleReq : HttpRequest :=
  { method := "GET"
    url := "/v1.41/info"
    requestURI := "/v1.41/info"
    header := [("Accept", ["application/json"])]
    body := []
    close := false }

/-- A sample forwarding environment in which every external call
succeeds and the backend answers with `sampleResp`. -/
def envOk : FwdEnv :=
  { dial := Except.ok ()
    newRequest := Except.ok ()
    writeReq := Except.ok ()
    readResponse := Except.ok sampleResp
    flushable := true
    bodyCopy := none
    upg := upgOk }

/-- A proxy with neither hook configured. -/
def proxyNoHooks : ReverseProxy := { director := none, modifyResponse := none }

/-- A Director hook that rewrites the outbound method. -/
def methodDirector : HttpRequest → HttpRequest := fun q => { q with method := "POST" }

/-- A proxy whose Director rewrites the outbound method. -/
def proxyMethodDirector : ReverseProxy :=
  { director := some methodDirector, modifyResponse := none }

/-- `envOk` with a failing dial. -/
def envDialErr : FwdEnv := { envOk with dial := Except.error "connection refused" }

/-- `envOk` with a failing outbound-request construction. -/
def envNewReqErr : FwdEnv := { envOk with newRequest := Except.error "invalid request" }

/-- `envOk` with a failing outbound-request write. -/
def envWriteErr : FwdEnv := { envOk with writeReq := Except.error "broken pipe" }

/-- `envOk` with a malformed backend response. -/
def envParseErr : FwdEnv := { envOk with readResponse := Except.error "malformed response" }

/-- `envOk` with a response sink that is not an `http.Flusher`. -/
def envNoFlush : FwdEnv := { envOk with flushable := false }

/-- `envOk` with the backend answering `101 Switching Protocols`. -/
def env101 : FwdEnv := { envOk with readResponse := Except.ok sampleResp101 }

/-- A proxy whose `ModifyResponse` hook fails. -/
def proxyModErr : ReverseProxy :=
  { director := none, modifyResponse := some (fun _ => Except.error "hook failed") }

/-- `upgOk` with a backend connection lacking half-close support. -/
def upgNoBackendHalf : UpgEnv := { upgOk with backendHalf := false }

/-- `upgOk` with a failing duplex pipe. -/
def upgPipeErr : UpgEnv := { upgOk with pipe := Except.error "pipe failed" }

/-- Every event of the header-propagation loop is a `headerAdd`. -/
theorem mem_headerAddEvents {e : Ev} {h : Header}
    (he : e ∈ headerAddEvents h) : ∃ k v, e = Ev.headerAdd k v := by
  unfold headerAddEvents at he
  rw [List.mem_flatMap] at he
  obtain ⟨kv, _, hv⟩ := he
  rw [List.mem_map] at hv
  obtain ⟨v, _, rfl⟩ := hv
  exact ⟨kv.1, v, rfl⟩

/-- The header-propagation events are all client-visible. -/
theorem filter_clientVisible_headerAddEvents (h : Header) :
    (headerAddEvents h).filter clientVisible = headerAddEvents h := by
  rw [List.filter_eq_self]
  intro e he
  obtain ⟨k, v, rfl⟩ := mem_headerAddEvents he
  rfl

/-- No header-propagation event is an `httpError`. -/
theorem filter_httpError_headerAddEvents (h : Header) :
    (headerAddEvents h).filter
      (fun e => match e with | Ev.httpError _ _ => true | _ => false) = [] := by
  rw [List.filter_eq_nil_iff]
  intro e he
  obtain ⟨k, v, rfl⟩ := mem_headerAddEvents he
  simp

/-- Characterisation of the capability-check/pipe phase events. -/
theorem mem_capAndPipe {e : Ev} {env : UpgEnv} (he : e ∈ capAndPipe env) :
    e = Ev.startPipe ∨ ∃ c m, e = Ev.reportError c m := by
  unfold capAndPipe at he
  split at he
  · simp at he
    exact Or.inr ⟨500, _, he⟩
  · split at he
    · simp at he
      exact Or.inr ⟨500, _, he⟩
    · rw [List.mem_cons] at he; rcases he with rfl | he
      · exact Or.inl rfl
      · split at he
        · simp at he
          exact Or.inr ⟨500, _, he⟩
        · simp at he

/-- Characterisation of the reader-drain phase events. -/
theorem mem_drainAndPipe {e : Ev} {env : UpgEnv} (he : e ∈ drainAndPipe env) :
    e = Ev.writeBackendBytes env.bufRead ∨ e = Ev.startPipe ∨
      ∃ c m, e = Ev.reportError c m := by
  unfold drainAndPipe at he
  split at he
  · split at he
    · simp at he
      exact Or.inr (Or.inr ⟨500, _, he⟩)
    · split at he
      · simp at he
        exact Or.inr (Or.inr ⟨500, _, he⟩)
      · rw [List.mem_cons] at he; rcases he with rfl | he
        · exact Or.inl rfl
        · exact Or.inr (mem_capAndPipe he)
  · exact Or.inr (mem_capAndPipe he)

/-- Characterisation of the writer-flush phase events. -/
theorem mem_flushAndPipe {e : Ev} {env : UpgEnv} (he : e ∈ flushAndPipe env) :
    e = Ev.flushClient ∨ e = Ev.writeBackendBytes env.bufRead ∨
      e = Ev.startPipe ∨ ∃ c m, e = Ev.reportError c m := by
  unfold flushAndPipe at he
  split at he
  · split at he
    · simp at he
      exact Or.inr (Or.inr (Or.inr ⟨500, _, he⟩))
    · rw [List.mem_cons] at he; rcases he with rfl | he
      · exact Or.inl rfl
      · exact Or.inr (mem_drainAndPipe he)
  · exact Or.inr (mem_drainAndPipe he)

/-- Characterisation of the upgrade-handler events. -/
theorem mem_handleUpgraded {e : Ev} {env : UpgEnv}
    (he : e ∈ handleUpgradedConnection env) :
    (∃ m, e = Ev.httpError 500 m) ∨ e = Ev.hijackEv ∨ e = Ev.closeClient ∨
      e = Ev.flushClient ∨ e = Ev.writeBackendBytes env.bufRead ∨
      e = Ev.startPipe ∨ ∃ c m, e = Ev.reportError c m := by
  unfold handleUpgradedConnection at he
  split at he
  · simp at he
    exact Or.inl ⟨_, he⟩
  · rw [List.mem_cons] at he; rcases he with rfl | he
    · exact Or.inr (Or.inl rfl)
    · rw [List.mem_append] at he
      rcases he with he | he
      · rcases mem_flushAndPipe he with h | h | h | h
        · exact Or.inr (Or.inr (Or.inr (Or.inl h)))
        · exact Or.inr (Or.inr (Or.inr (Or.inr (Or.inl h))))
        · exact Or.inr (Or.inr (Or.inr (Or.inr (Or.inr (Or.inl h)))))
        · exact Or.inr (Or.inr (Or.inr (Or.inr (Or.inr (Or.inr h)))))
      · simp at he
        exact Or.inr (Or.inr (Or.inl he))

/-- Characterisation of the deferred-cleanup events. -/
theorem mem_deferredAll {e : Ev} (he : e ∈ deferredAll) :
    e = Ev.closeRespBody ∨ e = Ev.closeBackend ∨ e = Ev.cancelScope := by
  unfold deferredAll at he
  simpa using he

/-- Characterisation of the streaming/upgrade tail events. -/
theorem mem_streamOrUpgrade {e : Ev} {env : FwdEnv} {resp : HttpResponse}
    (he : e ∈ streamOrUpgrade env resp) :
    e = Ev.upgradeInvoked ∨ e ∈ handleUpgradedConnection env.upg ∨
      e = Ev.startFlusher ∨ (∃ b, e = Ev.bodyChunk b) ∨ e ∈ deferredAll := by
  unfold streamOrUpgrade at he
  split at he
  · rw [List.mem_append] at he
    rcases he with he | he
    · rw [List.mem_cons] at he; rcases he with rfl | he
      · exact Or.inl rfl
      · exact Or.inr (Or.inl he)
    · exact Or.inr (Or.inr (Or.inr (Or.inr he)))
  · rw [List.mem_cons] at he; rcases he with rfl | he
    · exact Or.inr (Or.inr (Or.inl rfl))
    · split at he
      · rw [List.mem_cons] at he; rcases he with rfl | he
        · exact Or.inr (Or.inr (Or.inr (Or.inl ⟨_, rfl⟩)))
        · exact Or.inr (Or.inr (Or.inr (Or.inr he)))
      · rw [List.mem_cons] at he; rcases he with rfl | he
        · exact Or.inr (Or.inr (Or.inr (Or.inl ⟨_, rfl⟩)))
        · exact Or.inr (Or.inr (Or.inr (Or.inr he)))

/-- Characterisation of the commit-and-stream events. -/
theorem mem_commitAndStream {e : Ev} {env : FwdEnv} {resp : HttpResponse}
    (he : e ∈ commitAndStream env resp) :
    (∃ k v, e = Ev.headerAdd k v) ∨ e = Ev.writeHeader resp.statusCode ∨
      (∃ m, e = Ev.panicEv m) ∨ e = Ev.flush ∨
      e ∈ streamOrUpgrade env resp ∨ e ∈ deferredAll := by
  unfold commitAndStream at he
  rw [List.mem_append] at he
  rcases he with he | he
  · exact Or.inl (mem_headerAddEvents he)
  · rw [List.mem_cons] at he; rcases he with rfl | he
    · exact Or.inr (Or.inl rfl)
    · split at he
      · rw [List.mem_cons] at he; rcases he with rfl | he
        · exact Or.inr (Or.inr (Or.inl ⟨_, rfl⟩))
        · exact Or.inr (Or.inr (Or.inr (Or.inr (Or.inr he))))
      · rw [List.mem_cons] at he; rcases he with rfl | he
        · exact Or.inr (Or.inr (Or.inr (Or.inl rfl)))
        · exact Or.inr (Or.inr (Or.inr (Or.inr (Or.inl he))))

/-- No commit-phase or later event is the dial or the outbound request
write: those happen exactly once, earlier. -/
theorem commitAndStream_no_dial_no_reqWrite {e : Ev} {env : FwdEnv}
    {resp : HttpResponse} (he : e ∈ commitAndStream env resp) :
    e ≠ Ev.dialBackend ∧ ∀ q : HttpRequest, e ≠ Ev.writeBackendReq q := by
  rcases mem_commitAndStream he with ⟨k, v, rfl⟩ | rfl | ⟨m, rfl⟩ | rfl | hs | hd
  · exact And.intro (fun h => nomatch h) (fun q h => nomatch h)
  · exact And.intro (fun h => nomatch h) (fun q h => nomatch h)
  · exact And.intro (fun h => nomatch h) (fun q h => nomatch h)
  · exact And.intro (fun h => nomatch h) (fun q h => nomatch h)
  · rcases mem_streamOrUpgrade hs with rfl | hu | rfl | ⟨b, rfl⟩ | hd
    · exact And.intro (fun h => nomatch h) (fun q h => nomatch h)
    · rcases mem_handleUpgraded hu with ⟨m, rfl⟩ | rfl | rfl | rfl | rfl | rfl | ⟨c, m, rfl⟩
      all_goals exact And.intro (fun h => nomatch h) (fun q h => nomatch h)
    · exact And.intro (fun h => nomatch h) (fun q h => nomatch h)
    · exact And.intro (fun h => nomatch h) (fun q h => nomatch h)
    · rcases mem_deferredAll hd with rfl | rfl | rfl
      all_goals exact And.intro (fun h => nomatch h) (fun q h => nomatch h)
  · rcases mem_deferredAll hd with rfl | rfl | rfl
    all_goals exact And.intro (fun h => nomatch h) (fun q h => nomatch h)

/-- The dial event never recurs after the head of the trace. -/
theorem dial_not_mem_forwardTail (proxy : ReverseProxy) (env : FwdEnv)
    (r : HttpRequest) : Ev.dialBackend ∉ forwardTail proxy env r := by
  intro he
  unfold forwardTail at he
  split at he
  · simp at he
  · split at he
    · simp at he
    · rw [List.mem_cons] at he
      rcases he with h | he
      · exact nomatch h
      · split at he
        · simp at he
        · split at he
          · simp at he
          · split at he
            · rw [List.mem_cons] at he
              rcases he with h | he
              · exact nomatch h
              · rcases mem_deferredAll he with h | h | h <;> exact nomatch h
            · exact (commitAndStream_no_dial_no_reqWrite he).1 rfl

/-- Any outbound-request-write event in the trace carries exactly the
request built from the inbound one (with hooks and forced keep-alive
applied). -/
theorem writeBackendReq_unique {proxy : ReverseProxy} {env : FwdEnv}
    {r : HttpRequest} {q : HttpRequest}
    (hq : Ev.writeBackendReq q ∈ forwardRequest proxy env r) :
    q = sentRequest proxy r := by
  unfold forwardRequest at hq
  rw [List.mem_cons] at hq
  rcases hq with h | hq
  · exact nomatch h
  unfold forwardTail at hq
  split at hq
  · simp at hq
  · split at hq
    · simp at hq
    · rw [List.mem_cons] at hq
      rcases hq with h | hq
      · exact (Ev.writeBackendReq.injEq _ _).mp h
      · split at hq
        · simp at hq
        · split at hq
          · simp at hq
          · split at hq
            · rw [List.mem_cons] at hq
              rcases hq with h | hq
              · exact nomatch h
              · rcases mem_deferredAll hq with h | h | h <;> exact nomatch h
            · exact absurd rfl ((commitAndStream_no_dial_no_reqWrite hq).2 q)

/-- Once the dial and the outbound construction succeed, the outbound
request is written to the backend. -/
theorem writeBackendReq_mem (proxy : ReverseProxy) (env : FwdEnv)
    (r : HttpRequest) (hdial : env.dial = Except.ok ())
    (hnew : env.newRequest = Except.ok ()) :
    Ev.writeBackendReq (sentRequest proxy r) ∈ forwardRequest proxy env r := by
  unfold forwardRequest forwardTail
  rw [hdial, hnew]
  simp

/-- The tail of the trace once every step up to the `ModifyResponse`
hook has succeeded. -/
theorem forwardTail_success (proxy : ReverseProxy) (env : FwdEnv)
    (r : HttpRequest) (resp resp' : HttpResponse)
    (hdial : env.dial = Except.ok ())
    (hnew : env.newRequest = Except.ok ())
    (hwrite : env.writeReq = Except.ok ())
    (hread : env.readResponse = Except.ok resp)
    (hmod : applyModify proxy.modifyResponse resp = Except.ok resp') :
    forwardTail proxy env r =
      Ev.writeBackendReq (sentRequest proxy r) :: commitAndStream env resp' := by
  simp only [forwardTail, hdial, hnew, hwrite, hread, hmod]

/-- Claim C8: the PeriodicFlusher waits for either cancellation or the
fixed 100 ms tick: cancellation stops it at once without flushing again,
a tick raced by cancellation in the interim flushes nothing, an
uncanceled tick flushes exactly once and loops, and a sink without flush
capability makes it log and exit without ever flushing; over any finite
schedule it flushes exactly once per uncanceled leading tick. -/
theorem c8_flusher_contract (steps rest : List FlushStep) :
    tickIntervalMs = 100 ∧
    periodicHttpFlush false steps = [FlushEv.logNoFlusher] ∧
    FlushEv.flushEv ∉ periodicHttpFlush false steps ∧
    periodicHttpFlush true (FlushStep.cancel :: rest) = [] ∧
    periodicHttpFlush true (FlushStep.tick true :: rest) = [] ∧
    periodicHttpFlush true (FlushStep.tick false :: rest) =
      FlushEv.flushEv :: periodicHttpFlush true rest ∧
    periodicHttpFlush true steps =
      List.replicate (uncanceledTicks steps) FlushEv.flushEv := by
  refine ⟨rfl, rfl, by simp [periodicHttpFlush], rfl, rfl, rfl, ?_⟩
  induction steps with
  | nil => rfl
  | cons s rs ih =>
    cases s with
    | cancel => rfl
    | tick b =>
      cases b with
      | true => rfl
      | false =>
        simp only [periodicHttpFlush, if_neg, flushLoop, uncanceledTicks,
          List.replicate_succ] at ih ⊢
        exact List.cons_eq_cons.mpr ⟨rfl, ih⟩

/-- Claim C10: when constructing the outbound request fails after a
successful dial, the client receives a 500 error response (not the 502
of the other pre-commit failures), the forwarding terminates, and the
already-dialed backend connection is still closed by its deferred
`Close`. -/
theorem c10_construction_failure (proxy : ReverseProxy) (env : FwdEnv)
    (r : HttpRequest) (e : String)
    (hdial : env.dial = Except.ok ())
    (hnew : env.newRequest = Except.error e) :
    forwardRequest proxy env r =
      [Ev.dialBackend, Ev.httpError 500 e, Ev.closeBackend, Ev.cancelScope] := by
  simp only [forwardRequest, forwardTail, hdial, hnew]

/-- Witness for C10 at a concrete failing construction. -/
theorem c10_witness :
    forwardRequest proxyNoHooks envNewReqErr sampleReq =
      [Ev.dialBackend, Ev.httpError 500 "invalid request", Ev.closeBackend,
       Ev.cancelScope] :=
  c10_construction_failure proxyNoHooks envNewReqErr sampleReq "invalid request"
    rfl rfl

/-- Claim C4: the backend dial occurs exactly once per request (no
internal retry), and a failure of the dial, of the outbound request
write, of the response parse, or of the ModifyResponse hook each
terminates the forwarding with a 502 error response to the client. -/
theorem c4_single_dial_and_502 (proxy : ReverseProxy) (env : FwdEnv)
    (r : HttpRequest) :
    (forwardRequest proxy env r).count Ev.dialBackend = 1 ∧
    (∀ e, env.dial = Except.error e →
      forwardRequest proxy env r =
        [Ev.dialBackend, Ev.httpError 502 e, Ev.cancelScope]) ∧
    (∀ e, env.dial = Except.ok () → env.newRequest = Except.ok () →
      env.writeReq = Except.error e →
      forwardRequest proxy env r =
        [Ev.dialBackend, Ev.writeBackendReq (sentRequest proxy r),
         Ev.httpError 502 e, Ev.closeBackend, Ev.cancelScope]) ∧
    (∀ e, env.dial = Except.ok () → env.newRequest = Except.ok () →
      env.writeReq = Except.ok () → env.readResponse = Except.error e →
      forwardRequest proxy env r =
        [Ev.dialBackend, Ev.writeBackendReq (sentRequest proxy r),
         Ev.httpError 502 e, Ev.closeBackend, Ev.cancelScope]) ∧
    (∀ resp e, env.dial = Except.ok () → env.newRequest = Except.ok () →
      env.writeReq = Except.ok () → env.readResponse = Except.ok resp →
      applyModify proxy.modifyResponse resp = Except.error e →
      forwardRequest proxy env r =
        Ev.dialBackend :: Ev.writeBackendReq (sentRequest proxy r) ::
          Ev.httpError 502 e :: deferredAll) := by
  refine ⟨?_, ?_, ?_, ?_, ?_⟩
  · rw [forwardRequest, List.count_cons_self,
      List.count_eq_zero.mpr (dial_not_mem_forwardTail proxy env r)]
  · intro e h
    simp only [forwardRequest, forwardTail, h]
  · intro e h1 h2 h3
    simp only [forwardRequest, forwardTail, h1, h2, h3]
  · intro e h1 h2 h3 h4
    simp only [forwardRequest, forwardTail, h1, h2, h3, h4]
  · intro resp e h1 h2 h3 h4 h5
    simp only [forwardRequest, forwardTail, h1, h2, h3, h4, h5]

/-- Witness for C4 at a concrete failing dial. -/
theorem c4_witness :
    (forwardRequest proxyNoHooks envDialErr sampleReq).count Ev.dialBackend = 1 ∧
    forwardRequest proxyNoHooks envDialErr sampleReq =
      [Ev.dialBackend, Ev.httpError 502 "connection refused", Ev.cancelScope] :=
  ⟨(c4_single_dial_and_502 proxyNoHooks envDialErr sampleReq).1,
   (c4_single_dial_and_502 proxyNoHooks envDialErr sampleReq).2.1
     "connection refused" rfl⟩

/-- The commit phase when the sink supports flushing. -/
theorem commitAndStream_flushable (env : FwdEnv) (resp : HttpResponse)
    (hfl : env.flushable = true) :
    commitAndStream env resp =
      headerAddEvents resp.header ++
        (Ev.writeHeader resp.statusCode :: Ev.flush ::
          streamOrUpgrade env resp) := by
  simp [commitAndStream, hfl]

/-- The commit phase when the sink is not an `http.Flusher`. -/
theorem commitAndStream_unflushable (env : FwdEnv) (resp : HttpResponse)
    (hfl : env.flushable = false) :
    commitAndStream env resp =
      headerAddEvents resp.header ++
        (Ev.writeHeader resp.statusCode ::
          Ev.panicEv "expected http.ResponseWriter to be an http.Flusher" ::
          deferredAll) := by
  simp [commitAndStream, hfl]

/-- The streaming tail on a non-101 status with the body copied to
EOF. -/
theorem streamOrUpgrade_non101 (env : FwdEnv) (resp : HttpResponse)
    (h101 : resp.statusCode ≠ 101) (hcopy : env.bodyCopy = none) :
    streamOrUpgrade env resp =
      Ev.startFlusher :: Ev.bodyChunk resp.body :: deferredAll := by
  simp only [streamOrUpgrade, if_neg h101, hcopy]

/-- The streaming tail on a non-101 status with a copy error after `n`
bytes. -/
theorem streamOrUpgrade_non101_err (env : FwdEnv) (resp : HttpResponse)
    (n : Nat) (h101 : resp.statusCode ≠ 101) (hcopy : env.bodyCopy = some n) :
    streamOrUpgrade env resp =
      Ev.startFlusher :: Ev.bodyChunk (resp.body.take n) :: deferredAll := by
  simp only [streamOrUpgrade, if_neg h101, hcopy]

/-- The upgrade tail on a 101 status. -/
theorem streamOrUpgrade_101 (env : FwdEnv) (resp : HttpResponse)
    (h101 : resp.statusCode = 101) :
    streamOrUpgrade env resp =
      Ev.upgradeInvoked :: (handleUpgradedConnection env.upg ++ deferredAll) := by
  simp only [streamOrUpgrade, if_pos h101, List.cons_append]

/-- The flusher-start event never comes from the header loop. -/
theorem startFlusher_not_mem_headerAddEvents (h : Header) :
    Ev.startFlusher ∉ headerAddEvents h := by
  intro hm
  rcases mem_headerAddEvents hm with ⟨k, v, h⟩
  exact nomatch h

/-- The flusher-start event never comes from the upgrade handler. -/
theorem startFlusher_not_mem_handleUpgraded (env : UpgEnv) :
    Ev.startFlusher ∉ handleUpgradedConnection env := by
  intro hm
  rcases mem_handleUpgraded hm with ⟨m, h⟩ | h | h | h | h | h | ⟨c, m, h⟩ <;>
    exact nomatch h

/-- Claim C1: whenever the dial succeeds, the outbound request is built
and written, the backend response parses with a non-101 status, and the
ModifyResponse hook (if present) succeeds leaving `resp'` (with no hook,
`resp'` is the backend response itself), the client observes exactly
that response's status code, its header multiset with every key's values
in order, and its body byte for byte — and the status line and headers
are written and flushed before any body byte.  The two remaining
hypotheses say the sink supports flushing (true of every real `net/http`
ResponseWriter) and that the body copy reaches EOF (the client stays
connected, which observing the full body presupposes). -/
theorem c1_response_fidelity (proxy : ReverseProxy) (env : FwdEnv)
    (r : HttpRequest) (resp resp' : HttpResponse)
    (hdial : env.dial = Except.ok ())
    (hnew : env.newRequest = Except.ok ())
    (hwrite : env.writeReq = Except.ok ())
    (hread : env.readResponse = Except.ok resp)
    (hmod : applyModify proxy.modifyResponse resp = Except.ok resp')
    (h101 : resp'.statusCode ≠ 101)
    (hfl : env.flushable = true)
    (hcopy : env.bodyCopy = none) :
    clientObs (forwardRequest proxy env r) =
      headerAddEvents resp'.header ++
        [Ev.writeHeader resp'.statusCode, Ev.flush,
         Ev.bodyChunk resp'.body] := by
  rw [forwardRequest,
    forwardTail_success proxy env r resp resp' hdial hnew hwrite hread hmod,
    commitAndStream_flushable env resp' hfl,
    streamOrUpgrade_non101 env resp' h101 hcopy]
  simp [clientObs, List.filter_append, filter_clientVisible_headerAddEvents,
    clientVisible, deferredAll]

/-- Witness for C1 at a concrete 200 response. -/
theorem c1_witness :
    clientObs (forwardRequest proxyNoHooks envOk sampleReq) =
      headerAddEvents sampleResp.header ++
        [Ev.writeHeader sampleResp.statusCode, Ev.flush,
         Ev.bodyChunk sampleResp.body] :=
  c1_response_fidelity proxyNoHooks envOk sampleReq sampleResp sampleResp
    rfl rfl rfl rfl rfl (by decide) rfl rfl

/-- Claim C5 (amended): the outbound request as constructed carries the
inbound method, headers and body unchanged and targets the fixed
synthetic authority `http://api.moby.localhost`; the request actually
written to the backend is that request after the optional Director hook
runs, with keep-alive forced (`Close = false`) after the hook, and it is
the only request ever written; when no Director is configured the
written request is exactly the constructed one. -/
theorem c5_outbound_request (proxy : ReverseProxy) (env : FwdEnv)
    (r : HttpRequest)
    (hdial : env.dial = Except.ok ())
    (hnew : env.newRequest = Except.ok ()) :
    Ev.writeBackendReq (sentRequest proxy r) ∈ forwardRequest proxy env r ∧
    (∀ q, Ev.writeBackendReq q ∈ forwardRequest proxy env r →
      q = sentRequest proxy r) ∧
    sentRequest proxy r =
      { applyDirector proxy.director (mkOutbound r) with close := false } ∧
    (sentRequest proxy r).close = false ∧
    (mkOutbound r).method = r.method ∧
    (mkOutbound r).url = targetProtocol ++ hostHeaderValue ++ r.requestURI ∧
    (mkOutbound r).header = r.header ∧
    (mkOutbound r).body = r.body ∧
    (proxy.director = none →
      sentRequest proxy r = { mkOutbound r with close := false }) := by
  refine ⟨writeBackendReq_mem proxy env r hdial hnew,
    fun q hq => writeBackendReq_unique hq, rfl, rfl, rfl, rfl, rfl, rfl, ?_⟩
  intro hd
  simp [sentRequest, applyDirector, hd]

/-- Claim C5 as stated is false: with a Director hook that rewrites the
method, the request written to the backend does not carry the inbound
method. -/
theorem c5_counterexample :
    Ev.writeBackendReq (sentRequest proxyMethodDirector sampleReq) ∈
      forwardRequest proxyMethodDirector envOk sampleReq ∧
    (sentRequest proxyMethodDirector sampleReq).method = "POST" ∧
    sampleReq.method = "GET" :=
  ⟨writeBackendReq_mem proxyMethodDirector envOk sampleReq rfl rfl, rfl, rfl⟩

/-- Witness for C5 (amended) at a concrete request. -/
theorem c5_witness :
    Ev.writeBackendReq (sentRequest proxyNoHooks sampleReq) ∈
      forwardRequest proxyNoHooks envOk sampleReq ∧
    (sentRequest proxyNoHooks sampleReq).close = false :=
  ⟨(c5_outbound_request proxyNoHooks envOk sampleReq rfl rfl).1,
   (c5_outbound_request proxyNoHooks envOk sampleReq rfl rfl).2.2.2.1⟩

/-- Claim C6: after the committed status and headers are flushed, the
forwarder branches on the status: exactly on 101 it invokes the upgrade
handler and returns without ever starting the flusher; on any other
status it starts the flusher and copies the body (to EOF, or the prefix
before a copy error), and the deferred cleanups close the backend
connection and cancel the scope on completion. -/
theorem c6_status_branch (proxy : ReverseProxy) (env : FwdEnv)
    (r : HttpRequest) (resp resp' : HttpResponse)
    (hdial : env.dial = Except.ok ())
    (hnew : env.newRequest = Except.ok ())
    (hwrite : env.writeReq = Except.ok ())
    (hread : env.readResponse = Except.ok resp)
    (hmod : applyModify proxy.modifyResponse resp = Except.ok resp')
    (hfl : env.flushable = true) :
    (resp'.statusCode = 101 →
      forwardRequest proxy env r =
        Ev.dialBackend :: Ev.writeBackendReq (sentRequest proxy r) ::
          (headerAddEvents resp'.header ++
            (Ev.writeHeader resp'.statusCode :: Ev.flush :: Ev.upgradeInvoked ::
              (handleUpgradedConnection env.upg ++ deferredAll))) ∧
      Ev.startFlusher ∉ forwardRequest proxy env r) ∧
    (resp'.statusCode ≠ 101 → env.bodyCopy = none →
      forwardRequest proxy env r =
        Ev.dialBackend :: Ev.writeBackendReq (sentRequest proxy r) ::
          (headerAddEvents resp'.header ++
            (Ev.writeHeader resp'.statusCode :: Ev.flush :: Ev.startFlusher ::
              Ev.bodyChunk resp'.body :: deferredAll))) ∧
    (∀ n, resp'.statusCode ≠ 101 → env.bodyCopy = some n →
      forwardRequest proxy env r =
        Ev.dialBackend :: Ev.writeBackendReq (sentRequest proxy r) ::
          (headerAddEvents resp'.header ++
            (Ev.writeHeader resp'.statusCode :: Ev.flush :: Ev.startFlusher ::
              Ev.bodyChunk (resp'.body.take n) :: deferredAll))) := by
  refine ⟨?_, ?_, ?_⟩
  · intro h101
    have ht : forwardRequest proxy env r =
        Ev.dialBackend :: Ev.writeBackendReq (sentRequest proxy r) ::
          (headerAddEvents resp'.header ++
            (Ev.writeHeader resp'.statusCode :: Ev.flush :: Ev.upgradeInvoked ::
              (handleUpgradedConnection env.upg ++ deferredAll))) := by
      rw [forwardRequest,
        forwardTail_success proxy env r resp resp' hdial hnew hwrite hread hmod,
        commitAndStream_flushable env resp' hfl, streamOrUpgrade_101 env resp' h101]
    refine ⟨ht, ?_⟩
    rw [ht]
    simp [List.mem_cons, List.mem_append, deferredAll,
      startFlusher_not_mem_headerAddEvents, startFlusher_not_mem_handleUpgraded]
  · intro h101 hcopy
    rw [forwardRequest,
      forwardTail_success proxy env r resp resp' hdial hnew hwrite hread hmod,
      commitAndStream_flushable env resp' hfl,
      streamOrUpgrade_non101 env resp' h101 hcopy]
  · intro n h101 hcopy
    rw [forwardRequest,
      forwardTail_success proxy env r resp resp' hdial hnew hwrite hread hmod,
      commitAndStream_flushable env resp' hfl,
      streamOrUpgrade_non101_err env resp' n h101 hcopy]

/-- Witness for C6 at a concrete 101 response. -/
theorem c6_witness :
    forwardRequest proxyNoHooks env101 sampleReq =
      Ev.dialBackend :: Ev.writeBackendReq (sentRequest proxyNoHooks sampleReq) ::
        (headerAddEvents sampleResp101.header ++
          (Ev.writeHeader sampleResp101.statusCode :: Ev.flush :: Ev.upgradeInvoked ::
            (handleUpgradedConnection env101.upg ++ deferredAll))) ∧
    Ev.startFlusher ∉ forwardRequest proxyNoHooks env101 sampleReq :=
  (c6_status_branch proxyNoHooks env101 sampleReq sampleResp101 sampleResp101
    rfl rfl rfl rfl rfl rfl).1 rfl

/-- Claim C9 (amended): when the response sink turns out not to support
flushing at the point the committed status and headers must be flushed,
the forwarder panics (the deferred cleanups still run), and no HTTP
error response — 500 or otherwise — is delivered to the client. -/
theorem c9_unflushable_panic (proxy : ReverseProxy) (env : FwdEnv)
    (r : HttpRequest) (resp resp' : HttpResponse)
    (hdial : env.dial = Except.ok ())
    (hnew : env.newRequest = Except.ok ())
    (hwrite : env.writeReq = Except.ok ())
    (hread : env.readResponse = Except.ok resp)
    (hmod : applyModify proxy.modifyResponse resp = Except.ok resp')
    (hfl : env.flushable = false) :
    forwardRequest proxy env r =
      Ev.dialBackend :: Ev.writeBackendReq (sentRequest proxy r) ::
        (headerAddEvents resp'.header ++
          (Ev.writeHeader resp'.statusCode ::
            Ev.panicEv "expected http.ResponseWriter to be an http.Flusher" ::
            deferredAll)) ∧
    httpErrorEvents (forwardRequest proxy env r) = [] := by
  have ht : forwardRequest proxy env r =
      Ev.dialBackend :: Ev.writeBackendReq (sentRequest proxy r) ::
        (headerAddEvents resp'.header ++
          (Ev.writeHeader resp'.statusCode ::
            Ev.panicEv "expected http.ResponseWriter to be an http.Flusher" ::
            deferredAll)) := by
    rw [forwardRequest,
      forwardTail_success proxy env r resp resp' hdial hnew hwrite hread hmod,
      commitAndStream_unflushable env resp' hfl]
  refine ⟨ht, ?_⟩
  rw [ht]
  simp [httpErrorEvents, List.filter_append, filter_httpError_headerAddEvents,
    deferredAll]

/-- Claim C9 as stated is false: at a concrete request whose sink is not
an `http.Flusher`, the forwarder panics at the flush point and the
client receives no HTTP error response at all, in particular no 500. -/
theorem c9_counterexample :
    Ev.panicEv "expected http.ResponseWriter to be an http.Flusher" ∈
      forwardRequest proxyNoHooks envNoFlush sampleReq ∧
    httpErrorEvents (forwardRequest proxyNoHooks envNoFlush sampleReq) = [] := by
  decide

/-- Witness for C9 (amended) at a concrete unflushable sink. -/
theorem c9_witness :
    forwardRequest proxyNoHooks envNoFlush sampleReq =
      Ev.dialBackend :: Ev.writeBackendReq (sentRequest proxyNoHooks sampleReq) ::
        (headerAddEvents sampleResp.header ++
          (Ev.writeHeader sampleResp.statusCode ::
            Ev.panicEv "expected http.ResponseWriter to be an http.Flusher" ::
            deferredAll)) ∧
    httpErrorEvents (forwardRequest proxyNoHooks envNoFlush sampleReq) = [] :=
  c9_unflushable_panic proxyNoHooks envNoFlush sampleReq sampleResp sampleResp
    rfl rfl rfl rfl rfl rfl

/-- The writer-flush phase once its fallible steps succeed, as the
concatenation of its optional pieces. -/
theorem flushAndPipe_ok (env : UpgEnv)
    (hfw : env.flushBufWrite = Except.ok ())
    (hrd : env.readBuf = Except.ok ())
    (hwb : env.writeBackend = Except.ok ()) :
    flushAndPipe env =
      (if 0 < env.bufWrite then [Ev.flushClient] else []) ++
        ((if 0 < env.bufRead.length then [Ev.writeBackendBytes env.bufRead]
          else []) ++ capAndPipe env) := by
  unfold flushAndPipe drainAndPipe
  rw [hfw, hrd, hwb]
  by_cases h1 : env.bufWrite > 0 <;> by_cases h2 : env.bufRead.length > 0 <;>
    simp [h1, h2]

/-- Events of the reader-drain phase lift to the writer-flush phase when
the flush step passes. -/
theorem mem_flushAndPipe_of_drain {e : Ev} (env : UpgEnv)
    (h0 : env.bufWrite = 0 ∨ env.flushBufWrite = Except.ok ())
    (hm : e ∈ drainAndPipe env) : e ∈ flushAndPipe env := by
  unfold flushAndPipe
  rcases h0 with h | h
  · rw [h]
    simpa using hm
  · by_cases hbw : env.bufWrite > 0
    · rw [if_pos hbw, h]
      simp [List.mem_cons, hm]
    · rw [if_neg hbw]
      exact hm

/-- Events of the capability phase lift to the reader-drain phase when
the drain step passes. -/
theorem mem_drainAndPipe_of_cap {e : Ev} (env : UpgEnv)
    (h0 : env.bufRead = [] ∨
      (env.readBuf = Except.ok () ∧ env.writeBackend = Except.ok ()))
    (hm : e ∈ capAndPipe env) : e ∈ drainAndPipe env := by
  unfold drainAndPipe
  rcases h0 with h | ⟨h1, h2⟩
  · rw [h]
    simpa using hm
  · by_cases hbr : env.bufRead.length > 0
    · rw [if_pos hbr, h1, h2]
      simp [List.mem_cons, hm]
    · rw [if_neg hbr]
      exact hm

/-- Events of the writer-flush phase lift to the whole handler after a
successful hijack. -/
theorem mem_handleUpgraded_of_flush {e : Ev} (env : UpgEnv)
    (hh : env.hijack = Except.ok ()) (hm : e ∈ flushAndPipe env) :
    e ∈ handleUpgradedConnection env := by
  simp only [handleUpgradedConnection, hh]
  rw [List.mem_cons, List.mem_append]
  exact Or.inr (Or.inl hm)

/-- Claim C2: after a successful hijack, the buffered write side (when
nonempty) is flushed to the client, and the bytes buffered on the read
side at hijack time are written to the backend exactly once, in their
original order, strictly before the capability checks and the `Pipe`
call that start the bidirectional relay, which contain no further
backend byte writes. -/
theorem c2_hijack_buffer_replay (env : UpgEnv)
    (hh : env.hijack = Except.ok ())
    (hfw : env.flushBufWrite = Except.ok ())
    (hrd : env.readBuf = Except.ok ())
    (hwb : env.writeBackend = Except.ok ()) :
    handleUpgradedConnection env =
      Ev.hijackEv ::
        ((if 0 < env.bufWrite then [Ev.flushClient] else []) ++
          ((if 0 < env.bufRead.length then [Ev.writeBackendBytes env.bufRead]
            else []) ++ (capAndPipe env ++ [Ev.closeClient]))) ∧
    (∀ b, Ev.writeBackendBytes b ∉ capAndPipe env) ∧
    (∀ b, Ev.writeBackendBytes b ∉ [Ev.closeClient]) := by
  refine ⟨?_, ?_, ?_⟩
  · simp only [handleUpgradedConnection, hh]
    rw [flushAndPipe_ok env hfw hrd hwb]
    simp [List.append_assoc]
  · intro b hb
    rcases mem_capAndPipe hb with h | ⟨c, m, h⟩ <;> exact nomatch h
  · intro b hb
    simp at hb

/-- Witness for C2 at a concrete upgrade environment with one buffered
writer byte and buffered reader bytes `"PONG"`. -/
theorem c2_witness :
    handleUpgradedConnection upgOk =
      Ev.hijackEv ::
        ((if 0 < upgOk.bufWrite then [Ev.flushClient] else []) ++
          ((if 0 < upgOk.bufRead.length then [Ev.writeBackendBytes upgOk.bufRead]
            else []) ++ (capAndPipe upgOk ++ [Ev.closeClient]))) ∧
    Ev.writeBackendBytes upgOk.bufRead ∉ capAndPipe upgOk :=
  ⟨(c2_hijack_buffer_replay upgOk rfl rfl rfl rfl).1,
   (c2_hijack_buffer_replay upgOk rfl rfl rfl rfl).2.1 upgOk.bufRead⟩

/-- The pipe is reached in the capability phase exactly when both
half-close checks pass. -/
theorem startPipe_mem_capAndPipe_iff (env : UpgEnv) :
    Ev.startPipe ∈ capAndPipe env ↔
      env.backendHalf = true ∧ env.clientHalf = true := by
  unfold capAndPipe
  by_cases hb : env.backendHalf = false
  · simp [hb]
  · rw [if_neg hb]
    by_cases hc : env.clientHalf = false
    · simp [hb, hc]
    · rw [if_neg hc]
      simp only [Bool.not_eq_false] at hb hc
      simp [hb, hc]

/-- A pipe start inside the reader-drain phase comes from the
capability phase. -/
theorem startPipe_capAndPipe_of_drain (env : UpgEnv)
    (h : Ev.startPipe ∈ drainAndPipe env) : Ev.startPipe ∈ capAndPipe env := by
  unfold drainAndPipe at h
  split at h
  · split at h
    · simp at h
    · split at h
      · simp at h
      · rw [List.mem_cons] at h
        rcases h with h | h
        · exact nomatch h
        · exact h
  · exact h

/-- A pipe start inside the writer-flush phase comes from the
capability phase. -/
theorem startPipe_capAndPipe_of_flush (env : UpgEnv)
    (h : Ev.startPipe ∈ flushAndPipe env) : Ev.startPipe ∈ capAndPipe env := by
  unfold flushAndPipe at h
  split at h
  · split at h
    · simp at h
    · rw [List.mem_cons] at h
      rcases h with h | h
      · exact nomatch h
      · exact startPipe_capAndPipe_of_drain env h
  · exact startPipe_capAndPipe_of_drain env h

/-- A pipe start anywhere in the handler implies both half-close
capabilities. -/
theorem startPipe_handleUpgraded_caps (env : UpgEnv)
    (h : Ev.startPipe ∈ handleUpgradedConnection env) :
    env.backendHalf = true ∧ env.clientHalf = true := by
  unfold handleUpgradedConnection at h
  split at h
  · simp at h
  · rw [List.mem_cons] at h
    rcases h with h | h
    · exact nomatch h
    · rw [List.mem_append] at h
      rcases h with h | h
      · exact (startPipe_mem_capAndPipe_iff env).mp
          (startPipe_capAndPipe_of_flush env h)
      · simp at h

/-- A missing capability makes the capability phase report a 500. -/
theorem reportError_mem_capAndPipe (env : UpgEnv)
    (hc : env.backendHalf = false ∨ env.clientHalf = false) :
    ∃ m, Ev.reportError 500 m ∈ capAndPipe env := by
  unfold capAndPipe
  by_cases hb : env.backendHalf = false
  · rw [if_pos hb]
    exact ⟨"backend connection does not implement HalfReadCloseWriter", by simp⟩
  · rcases hc with h | h
    · exact absurd h hb
    · rw [if_neg hb, if_pos h]
      exact ⟨"client connection does not implement HalfReadCloseWriter", by simp⟩

/-- The capability phase when the backend half-close check fails. -/
theorem capAndPipe_no_backend_half (env : UpgEnv)
    (hb : env.backendHalf = false) :
    capAndPipe env =
      [Ev.reportError 500
        "backend connection does not implement HalfReadCloseWriter"] := by
  simp [capAndPipe, hb]

/-- Claim C3: the duplex pipe is started only when both the backend
connection and the hijacked client connection satisfy the half-close
capability; if either does not, the handler reports an internal (500)
error — which net/http drops with a log line, the connection being
hijacked — and returns without ever starting the pipe; there is no
degraded relay. -/
theorem c3_capability_gate (env : UpgEnv) :
    (Ev.startPipe ∈ handleUpgradedConnection env →
      env.backendHalf = true ∧ env.clientHalf = true) ∧
    (env.backendHalf = false ∨ env.clientHalf = false →
      Ev.startPipe ∉ handleUpgradedConnection env) ∧
    (env.hijack = Except.ok () →
      env.backendHalf = false ∨ env.clientHalf = false →
      (env.bufWrite = 0 ∨ env.flushBufWrite = Except.ok ()) →
      (env.bufRead = [] ∨
        (env.readBuf = Except.ok () ∧ env.writeBackend = Except.ok ())) →
      ∃ m, Ev.reportError 500 m ∈ handleUpgradedConnection env) ∧
    (env.hijack = Except.ok () → env.backendHalf = false →
      (env.bufWrite = 0 ∨ env.flushBufWrite = Except.ok ()) →
      (env.bufRead = [] ∨
        (env.readBuf = Except.ok () ∧ env.writeBackend = Except.ok ())) →
      Ev.reportError 500
          "backend connection does not implement HalfReadCloseWriter" ∈
        handleUpgradedConnection env) := by
  refine ⟨startPipe_handleUpgraded_caps env, ?_, ?_, ?_⟩
  · intro hc hp
    rcases startPipe_handleUpgraded_caps env hp with ⟨hb, hcl⟩
    rcases hc with h | h
    · rw [hb] at h
      exact nomatch h
    · rw [hcl] at h
      exact nomatch h
  · intro hh hc h0 h1
    obtain ⟨m, hm⟩ := reportError_mem_capAndPipe env hc
    exact ⟨m, mem_handleUpgraded_of_flush env hh
      (mem_flushAndPipe_of_drain env h0 (mem_drainAndPipe_of_cap env h1 hm))⟩
  · intro hh hb h0 h1
    refine mem_handleUpgraded_of_flush env hh
      (mem_flushAndPipe_of_drain env h0 (mem_drainAndPipe_of_cap env h1 ?_))
    rw [capAndPipe_no_backend_half env hb]
    simp

/-- Witness for C3 at a concrete backend connection lacking
half-close. -/
theorem c3_witness :
    Ev.startPipe ∉ handleUpgradedConnection upgNoBackendHalf ∧
    Ev.reportError 500
        "backend connection does not implement HalfReadCloseWriter" ∈
      handleUpgradedConnection upgNoBackendHalf :=
  ⟨(c3_capability_gate upgNoBackendHalf).2.1 (Or.inl rfl),
   (c3_capability_gate upgNoBackendHalf).2.2.2 rfl rfl (Or.inr rfl)
     (Or.inr ⟨rfl, rfl⟩)⟩

/-- `http.Error` calls made after a successful hijack never become a
client-visible HTTP error response. -/
theorem httpError_not_mem_handleUpgraded_ok (env : UpgEnv)
    (hh : env.hijack = Except.ok ()) (c : Nat) (m : String) :
    Ev.httpError c m ∉ handleUpgradedConnection env := by
  intro hm
  simp only [handleUpgradedConnection, hh] at hm
  rw [List.mem_cons] at hm
  rcases hm with h | hm
  · exact nomatch h
  · rw [List.mem_append] at hm
    rcases hm with hm | hm
    · rcases mem_flushAndPipe hm with h | h | h | ⟨c2, m2, h⟩ <;> exact nomatch h
    · simp at hm

/-- The deferred close of the hijacked client connection runs on every
post-hijack path. -/
theorem closeClient_mem_handleUpgraded_ok (env : UpgEnv)
    (hh : env.hijack = Except.ok ()) :
    Ev.closeClient ∈ handleUpgradedConnection env := by
  simp only [handleUpgradedConnection, hh]
  simp [List.mem_cons, List.mem_append]

/-- The writer-flush phase on a flush failure. -/
theorem flushAndPipe_flush_error (env : UpgEnv) (e : String)
    (hbw : 0 < env.bufWrite) (hfe : env.flushBufWrite = Except.error e) :
    flushAndPipe env = [Ev.reportError 500 e] := by
  simp only [flushAndPipe, if_pos hbw, hfe]

/-- The reader-drain phase on a drain-read failure. -/
theorem drainAndPipe_read_error (env : UpgEnv) (e : String)
    (hbr : 0 < env.bufRead.length) (hre : env.readBuf = Except.error e) :
    drainAndPipe env = [Ev.reportError 500 e] := by
  simp only [drainAndPipe, if_pos hbr, hre]

/-- The reader-drain phase on a backend-write failure. -/
theorem drainAndPipe_write_error (env : UpgEnv) (e : String)
    (hbr : 0 < env.bufRead.length) (hro : env.readBuf = Except.ok ())
    (hwe : env.writeBackend = Except.error e) :
    drainAndPipe env = [Ev.reportError 500 e] := by
  simp only [drainAndPipe, if_pos hbr, hro, hwe]

/-- The capability phase on a pipe failure with both capabilities
present. -/
theorem capAndPipe_pipe_error (env : UpgEnv) (e : String)
    (hb : env.backendHalf = true) (hc : env.clientHalf = true)
    (hpe : env.pipe = Except.error e) :
    capAndPipe env = [Ev.startPipe, Ev.reportError 500 e] := by
  simp [capAndPipe, hb, hc, hpe]

/-- The deferred cleanups always contain the backend close. -/
theorem closeBackend_mem_deferredAll : Ev.closeBackend ∈ deferredAll := by
  simp [deferredAll]

/-- Every streaming/upgrade tail ends in the deferred cleanups. -/
theorem closeBackend_mem_streamOrUpgrade (env : FwdEnv) (resp : HttpResponse) :
    Ev.closeBackend ∈ streamOrUpgrade env resp := by
  unfold streamOrUpgrade
  split
  · simp [deferredAll]
  · rw [List.mem_cons]
    right
    split <;> simp [deferredAll]

/-- Every commit phase ends in the deferred cleanups. -/
theorem closeBackend_mem_commitAndStream (env : FwdEnv) (resp : HttpResponse) :
    Ev.closeBackend ∈ commitAndStream env resp := by
  unfold commitAndStream
  rw [List.mem_append]
  right
  rw [List.mem_cons]
  right
  split
  · simp [deferredAll]
  · simp [closeBackend_mem_streamOrUpgrade]

/-- Once the dial succeeded, the deferred backend close runs on every
exit path of the forwarding. -/
theorem closeBackend_mem_forwardTail_ok (proxy : ReverseProxy) (env : FwdEnv)
    (r : HttpRequest) (hdial : env.dial = Except.ok ()) :
    Ev.closeBackend ∈ forwardTail proxy env r := by
  simp only [forwardTail, hdial]
  split
  · simp
  · rw [List.mem_cons]
    right
    split
    · simp
    · split
      · simp
      · split
        · simp [deferredAll]
        · exact closeBackend_mem_commitAndStream _ _

/-- Claim C7: after a successful hijack no failure is reported to the
client via an HTTP response (the `http.Error` calls land on a hijacked
connection and net/http drops them with a log line): a buffered-flush
failure, a buffered-read drain failure, a backend-write failure, a
missing half-close capability and a pipe failure each leave a logged
`reportError` event; the deferred close of the client connection runs on
every post-hijack path; and whenever the dial succeeded, the caller's
deferred close of the backend connection runs on every exit path of the
forwarding, upgrade or not. -/
theorem c7_post_hijack_error_policy (env : UpgEnv) (proxy : ReverseProxy)
    (fenv : FwdEnv) (r : HttpRequest) :
    (env.hijack = Except.ok () →
      (∀ c m, Ev.httpError c m ∉ handleUpgradedConnection env) ∧
      Ev.closeClient ∈ handleUpgradedConnection env) ∧
    (∀ e, env.hijack = Except.ok () → 0 < env.bufWrite →
      env.flushBufWrite = Except.error e →
      Ev.reportError 500 e ∈ handleUpgradedConnection env) ∧
    (∀ e, env.hijack = Except.ok () →
      (env.bufWrite = 0 ∨ env.flushBufWrite = Except.ok ()) →
      0 < env.bufRead.length → env.readBuf = Except.error e →
      Ev.reportError 500 e ∈ handleUpgradedConnection env) ∧
    (∀ e, env.hijack = Except.ok () →
      (env.bufWrite = 0 ∨ env.flushBufWrite = Except.ok ()) →
      0 < env.bufRead.length → env.readBuf = Except.ok () →
      env.writeBackend = Except.error e →
      Ev.reportError 500 e ∈ handleUpgradedConnection env) ∧
    (env.hijack = Except.ok () →
      (env.bufWrite = 0 ∨ env.flushBufWrite = Except.ok ()) →
      (env.bufRead = [] ∨
        (env.readBuf = Except.ok () ∧ env.writeBackend = Except.ok ())) →
      env.backendHalf = false ∨ env.clientHalf = false →
      ∃ m, Ev.reportError 500 m ∈ handleUpgradedConnection env) ∧
    (∀ e, env.hijack = Except.ok () →
      (env.bufWrite = 0 ∨ env.flushBufWrite = Except.ok ()) →
      (env.bufRead = [] ∨
        (env.readBuf = Except.ok () ∧ env.writeBackend = Except.ok ())) →
      env.backendHalf = true → env.clientHalf = true →
      env.pipe = Except.error e →
      Ev.reportError 500 e ∈ handleUpgradedConnection env) ∧
    (fenv.dial = Except.ok () →
      Ev.closeBackend ∈ forwardRequest proxy fenv r) := by
  refine ⟨?_, ?_, ?_, ?_, ?_, ?_, ?_⟩
  · intro hh
    exact ⟨fun c m => httpError_not_mem_handleUpgraded_ok env hh c m,
      closeClient_mem_handleUpgraded_ok env hh⟩
  · intro e hh hbw hfe
    refine mem_handleUpgraded_of_flush env hh ?_
    rw [flushAndPipe_flush_error env e hbw hfe]
    simp
  · intro e hh h0 hbr hre
    refine mem_handleUpgraded_of_flush env hh (mem_flushAndPipe_of_drain env h0 ?_)
    rw [drainAndPipe_read_error env e hbr hre]
    simp
  · intro e hh h0 hbr hro hwe
    refine mem_handleUpgraded_of_flush env hh (mem_flushAndPipe_of_drain env h0 ?_)
    rw [drainAndPipe_write_error env e hbr hro hwe]
    simp
  · intro hh h0 h1 hc
    obtain ⟨m, hm⟩ := reportError_mem_capAndPipe env hc
    exact ⟨m, mem_handleUpgraded_of_flush env hh
      (mem_flushAndPipe_of_drain env h0 (mem_drainAndPipe_of_cap env h1 hm))⟩
  · intro e hh h0 h1 hb hc hpe
    refine mem_handleUpgraded_of_flush env hh
      (mem_flushAndPipe_of_drain env h0 (mem_drainAndPipe_of_cap env h1 ?_))
    rw [capAndPipe_pipe_error env e hb hc hpe]
    simp
  · intro hd
    rw [forwardRequest, List.mem_cons]
    exact Or.inr (closeBackend_mem_forwardTail_ok proxy fenv r hd)

/-- Witness for C7 at a concrete pipe failure. -/
theorem c7_witness :
    Ev.closeClient ∈ handleUpgradedConnection upgPipeErr ∧
    Ev.reportError 500 "pipe failed" ∈ handleUpgradedConnection upgPipeErr ∧
    Ev.closeBackend ∈ forwardRequest proxyNoHooks envOk sampleReq :=
  ⟨((c7_post_hijack_error_policy upgPipeErr proxyNoHooks envOk sampleReq).1 rfl).2,
   (c7_post_hijack_error_policy upgPipeErr proxyNoHooks envOk sampleReq).2.2.2.2.2.1
     "pipe failed" rfl (Or.inr rfl) (Or.inr ⟨rfl, rfl⟩) rfl rfl rfl,
   (c7_post_hijack_error_policy upgPipeErr proxyNoHooks envOk sampleReq).2.2.2.2.2.2 rfl⟩
